import Mathlib

/-!
Verification of the Agentic-AI-Doctor data-preparation pipeline.

The development shallowly embeds the two repository components and their
orchestrators:

* `src/src/components/download_data_file.py` — class `Ingest_Data`
  (configuration resolution, retrying download, archive extraction);
* `src/src/components/memory_for_llm.py` — class `PDFVectorStore`
  (PDF loading, chunking, embedding, FAISS index build and save);
* `src/src/pipeline/stage02_memory.py` — class `Vector_DB_Pipeline`
  (the vectorization orchestrator, modelled at the level of the Python
  keyword-argument calls it makes).

External library effects (gdown transfers, the text splitter, the embedding
model, FAISS) are abstracted as explicit function parameters; filesystem
effects are made explicit in return values (write logs, file contents).
-/

/-- Error taxonomy of the ingestion component.  All of these are raised as
`MyException` in the Python source; the constructors keep the distinct
messages / situations apart. -/
inductive IngestError where
  | configurationError
  | downloadError (msg : String)
  | notFound (msg : String)
  | unsupportedFormat (msg : String)
  deriving DecidableEq, Repr

/-- Python truthiness of an optional string: `None` and `""` are falsy. -/
def truthy : Option String → Bool
  | none => false
  | some s => s ≠ ""

/-- Python `a or b` on optional strings: yields `b` whenever `a` is falsy
(`None` or the empty string). -/
def pyOr (a b : Option String) : Option String :=
  match a with
  | none => b
  | some s => if s = "" then b else some s

/-- The `DATA INGESTION` section of the config file, as read by
`Ingest_Data.__init__` via `config.get("ZIP FILE")` / `config.get("UNZIP DATA")`. -/
structure IngestConfig where
  zipFile : Option String
  unzipData : Option String
  deriving DecidableEq, Repr

/-- Attributes set by `Ingest_Data.__init__` (Python attributes may hold
`None`, hence `Option`). -/
structure IngestState where
  source_url : Option String
  local_data_file : Option String
  unzip_dir : Option String
  overwrite : Bool
  deriving DecidableEq, Repr

/-- Resolution of the three configuration values in `Ingest_Data.__init__`
(`download_data_file.py` lines 49-51):
`sourceURL or os.getenv("SOURCE_URL")`,
`zipFile or config.get("ZIP FILE")`,
`unzipData or config.get("UNZIP DATA")`. -/
def Ingest_Data.resolve (sourceURL zipFile unzipData : Option String)
    (envSourceUrl : Option String) (config : IngestConfig) :
    Option String × Option String × Option String :=
  (pyOr sourceURL envSourceUrl, pyOr zipFile config.zipFile, pyOr unzipData config.unzipData)

/-- Embedding of `Ingest_Data.__init__` (`download_data_file.py` lines 44-60):
resolve the three values, then raise `MyException` when any resolved value is
falsy (`if not self.source_url or not self.local_data_file or not self.unzip_dir`). -/
def Ingest_Data.init (sourceURL zipFile unzipData : Option String) (overwrite : Bool)
    (envSourceUrl : Option String) (config : IngestConfig) :
    Except IngestError IngestState :=
  let r := Ingest_Data.resolve sourceURL zipFile unzipData envSourceUrl config
  if truthy r.1 && truthy r.2.1 && truthy r.2.2 then
    Except.ok ⟨r.1, r.2.1, r.2.2, overwrite⟩
  else
    Except.error IngestError.configurationError

/-- Python `pat in s` substring test. -/
def containsSub (s pat : String) : Bool :=
  (List.range (s.length + 1)).any fun i => pat.toList.isPrefixOf (s.toList.drop i)

/-- URL rewriting inside `_retry_download` (`download_data_file.py` lines 67-72):
a URL containing `drive.google.com` has `url.split("/")[-2]` extracted as the
file id and is rewritten to the direct-download endpoint; any other URL is
used as-is.  (Python raises IndexError when the URL splits into fewer than two
parts; the model defaults to `""`, which no claim exercises.) -/
def effectiveUrl (url : String) : String :=
  if containsSub url "drive.google.com" then
    let parts := url.splitOn "/"
    let fileId := List.headD (List.drop 1 parts.reverse) ""
    "https://drive.google.com/uc?/export=download&id=" ++ fileId
  else url

/-- Success test after a download attempt
(`os.path.exists(output) and os.path.getsize(output) > 0`): the output file
exists (`some`) and is non-empty. -/
def nonEmptyFile : Option (List Nat) → Bool
  | none => false
  | some bytes => !bytes.isEmpty

instance exceptDecEq {ε α : Type} [DecidableEq ε] [DecidableEq α] :
    DecidableEq (Except ε α) := fun a b =>
  match a, b with
  | Except.ok x, Except.ok y =>
    if h : x = y then Decidable.isTrue (by rw [h])
    else Decidable.isFalse (fun c => h (Except.ok.inj c))
  | Except.error x, Except.error y =>
    if h : x = y then Decidable.isTrue (by rw [h])
    else Decidable.isFalse (fun c => h (Except.error.inj c))
  | Except.ok _, Except.error _ => Decidable.isFalse (fun c => Except.noConfusion c)
  | Except.error _, Except.ok _ => Decidable.isFalse (fun c => Except.noConfusion c)

/-- Observable trace of `_retry_download`: number of download attempts made,
durations of the sleeps between attempts, final state of the output file, and
the outcome. -/
structure RetryTrace where
  attempts : Nat
  sleeps : List Nat
  file : Option (List Nat)
  outcome : Except IngestError Unit
  deriving DecidableEq, Repr

/-- Loop body of `_retry_download` (`download_data_file.py` lines 62-85).
`transfer u a` is the output-file state the underlying `gdown.download` of URL
`u` leaves behind on attempt `a` (`none` covers both "no file" and an exception
inside the library).  `attempt` is the 1-based Python loop variable; the second
argument counts the iterations remaining, so `retryFrom ... 1 retries` is the
whole loop `for attempt in range(1, retries + 1)`.  On a failed attempt the
loop sleeps `delay` and continues when `attempt < retries`, and otherwise
raises `MyException(f"Failed to download after {retries} attempts", sys)`. -/
def retryFrom (transfer : String → Nat → Option (List Nat)) (url : String)
    (retries delay : Nat) : Nat → Nat → Option (List Nat) → RetryTrace
  | _, 0, fileNow => ⟨0, [], fileNow, Except.ok ()⟩
  | attempt, rem + 1, _fileNow =>
    let f := transfer (effectiveUrl url) attempt
    if nonEmptyFile f then
      ⟨1, [], f, Except.ok ()⟩
    else if 0 < rem then
      let t := retryFrom transfer url retries delay (attempt + 1) rem f
      ⟨t.attempts + 1, delay :: t.sleeps, t.file, t.outcome⟩
    else
      ⟨1, [], f, Except.error (IngestError.downloadError
        ("Failed to download after " ++ toString retries ++ " attempts"))⟩

/-- Embedding of `Ingest_Data._retry_download` with its full attempt loop;
`file0` is the output file's state before the first attempt. -/
def retry_download (transfer : String → Nat → Option (List Nat)) (url : String)
    (retries delay : Nat) (file0 : Option (List Nat)) : RetryTrace :=
  retryFrom transfer url retries delay 1 retries file0

/-- Result of `download_file`: whether parent directories were created, plus
the retry trace (zero attempts on the skip path). -/
structure DownloadFileResult where
  madeDirs : Bool
  trace : RetryTrace
  deriving DecidableEq, Repr

/-- Embedding of `Ingest_Data.download_file` (`download_data_file.py`
lines 87-99): when the destination file exists (`os.path.exists`, any size)
and `overwrite` is false it returns immediately; otherwise it creates parent
directories and calls `_retry_download(self.source_url, self.local_data_file)`
with the default `retries = 3`, `delay = 5`.  `destContent` is the destination
file's byte content (`none` = absent). -/
def download_file (source_url : String) (destContent : Option (List Nat))
    (overwrite : Bool) (transfer : String → Nat → Option (List Nat)) :
    DownloadFileResult :=
  if destContent.isSome && !overwrite then
    ⟨false, ⟨0, [], destContent, Except.ok ()⟩⟩
  else
    ⟨true, retry_download transfer source_url 3 5 destContent⟩

/-- Result of the content sniffers on an archive file:
`sniffZip` is `zipfile.is_zipfile`, `sniffTar` is `tarfile.is_tarfile`
(both inspect content, not the filename). -/
structure ArchiveBlob where
  sniffZip : Bool
  sniffTar : Bool
  deriving DecidableEq, Repr

/-- Extraction method chosen by `extract_file`. -/
inductive ExtractMethod where
  | zip
  | tar
  deriving DecidableEq, Repr

/-- Embedding of `Ingest_Data.extract_file` (`download_data_file.py`
lines 101-124): raises when the archive file is absent, otherwise tries the
zip sniff first, then the tar sniff, and raises on an unrecognized format.
The value returned is the extraction method dispatched to (the entry
extraction itself is a library effect). -/
def extract_file (file : Option ArchiveBlob) : Except IngestError ExtractMethod :=
  match file with
  | none => Except.error (IngestError.notFound "File not found")
  | some b =>
    if b.sniffZip then Except.ok ExtractMethod.zip
    else if b.sniffTar then Except.ok ExtractMethod.tar
    else Except.error (IngestError.unsupportedFormat
      "Unsupported archive format. Only ZIP/TAR supported.")

/-- Error raised by the vector-store component: the three `ValueError`s of
`memory_for_llm.py`, distinguished by message. -/
inductive VectorStoreError where
  | validationError (msg : String)
  deriving DecidableEq, Repr

/-- In-memory value built by `FAISS.from_documents(text_chunks, embedding_model)`:
the chunks together with the vector each one was embedded to. -/
structure FAISSIndex where
  docs : List String
  vectors : List (List Int)
  deriving DecidableEq, Repr

/-- Abstraction of `FAISS.from_documents`: embed every chunk with the model's
embedding function and build the index over the resulting vectors. -/
def FAISS.fromDocuments (emb : String → List Int) (docs : List String) : FAISSIndex :=
  ⟨docs, docs.map emb⟩

/-- State of a `PDFVectorStore` object (`memory_for_llm.py` lines 27-52):
the five configuration attributes set in `__init__`, the four mutable
attributes (`documents`, `text_chunks`, `embedding_model`, `db`), plus an
explicit log of `save_local` filesystem writes (path, index written). -/
structure VSState where
  data_path : String
  db_faiss_path : String
  chunk_size : Nat
  chunk_overlap : Nat
  model_name : String
  documents : List String
  text_chunks : List String
  embedding_model : Option String
  db : Option FAISSIndex
  fsWrites : List (String × FAISSIndex)
  deriving DecidableEq, Repr

/-- Fresh `PDFVectorStore` object: empty lists, `None` model and index, no
writes performed.  The Python defaults are
`data_path="data/"`, `db_faiss_path="vectorstore/db_faiss"`, `chunk_size=500`,
`chunk_overlap=50`, `model_name="sentence-transformers/all-MiniLM-L6-v2"`. -/
def PDFVectorStore.initState (data_path db_faiss_path : String)
    (chunk_size chunk_overlap : Nat) (model_name : String) : VSState :=
  ⟨data_path, db_faiss_path, chunk_size, chunk_overlap, model_name,
    [], [], none, none, []⟩

/-- Embedding of `PDFVectorStore.load_pdfs` (`memory_for_llm.py` lines 54-65):
load documents from the configured directory (`loader` abstracts
`DirectoryLoader(...).load()`), store them in `self.documents`, return them. -/
def PDFVectorStore.load_pdfs (loader : String → List String) (s : VSState) :
    List String × VSState :=
  let docs := loader s.data_path
  (docs, { s with documents := docs })

/-- Embedding of `PDFVectorStore.create_chunks` (`memory_for_llm.py`
lines 67-82): raise `ValueError` when `self.documents` is empty, otherwise
split the documents (`split` abstracts
`RecursiveCharacterTextSplitter(chunk_size, chunk_overlap).split_documents`),
store the chunks, return them.  The state is returned alongside the outcome so
the absence of mutation and of filesystem writes on the error path is
visible. -/
def PDFVectorStore.create_chunks (split : Nat → Nat → List String → List String)
    (s : VSState) : Except VectorStoreError (List String) × VSState :=
  if s.documents.isEmpty then
    (Except.error (VectorStoreError.validationError
      "No documents found. Run load_pdfs() first."), s)
  else
    let cs := split s.chunk_size s.chunk_overlap s.documents
    (Except.ok cs, { s with text_chunks := cs })

/-- Embedding of `PDFVectorStore.load_embedding_model` (`memory_for_llm.py`
lines 84-92): load `HuggingFaceEmbeddings(model_name=self.model_name)`
(modelled by its name), store it, return it. -/
def PDFVectorStore.load_embedding_model (s : VSState) : String × VSState :=
  (s.model_name, { s with embedding_model := some s.model_name })

/-- Embedding of `PDFVectorStore.build_faiss_index` (`memory_for_llm.py`
lines 94-107): raise `ValueError` when `self.text_chunks` is empty; load the
embedding model if not yet loaded; set `self.db` to
`FAISS.from_documents(self.text_chunks, self.embedding_model)` and return it.
`emb m` is model `m`'s embedding function.  Note the method performs no
filesystem write: persisting is done by `save_index`. -/
def PDFVectorStore.build_faiss_index (emb : String → String → List Int)
    (s : VSState) : Except VectorStoreError FAISSIndex × VSState :=
  if s.text_chunks.isEmpty then
    (Except.error (VectorStoreError.validationError
      "No text chunks found. Run create_chunks() first."), s)
  else
    let m := match s.embedding_model with
      | some m => m
      | none => s.model_name
    let db := FAISS.fromDocuments (emb m) s.text_chunks
    (Except.ok db, { s with embedding_model := some m, db := some db })

/-- Embedding of `PDFVectorStore.save_index` (`memory_for_llm.py`
lines 109-115): raise `ValueError` when `self.db` is `None`, otherwise
`self.db.save_local(str(self.db_faiss_path))`, modelled as appending a write
of the index at the configured path to the write log. -/
def PDFVectorStore.save_index (s : VSState) : Except VectorStoreError Unit × VSState :=
  match s.db with
  | none =>
    (Except.error (VectorStoreError.validationError
      "No FAISS index found. Run build_faiss_index() first."), s)
  | some db =>
    (Except.ok (), { s with fsWrites := s.fsWrites ++ [(s.db_faiss_path, db)] })

/-- Index persisted at path `p` after the writes `ws`: the last write at `p`
wins (each `save_local` at a path overwrites the previous index there). -/
def persistedAt (ws : List (String × FAISSIndex)) (p : String) : Option FAISSIndex :=
  match ws.reverse.find? (fun w => w.1 == p) with
  | some w => some w.2
  | none => none

/-- Embedding of `PDFVectorStore.run_pipeline` (`memory_for_llm.py`
lines 117-129): load → chunk → load model → build index → save, returning the
built index. -/
def PDFVectorStore.run_pipeline (loader : String → List String)
    (split : Nat → Nat → List String → List String)
    (emb : String → String → List Int) (s : VSState) :
    Except VectorStoreError FAISSIndex × VSState :=
  let r1 := PDFVectorStore.load_pdfs loader s
  match PDFVectorStore.create_chunks split r1.2 with
  | (Except.error e, s2) => (Except.error e, s2)
  | (Except.ok _, s2) =>
    let r3 := PDFVectorStore.load_embedding_model s2
    match PDFVectorStore.build_faiss_index emb r3.2 with
    | (Except.error e, s4) => (Except.error e, s4)
    | (Except.ok db, s4) =>
      match PDFVectorStore.save_index s4 with
      | (Except.error e, s5) => (Except.error e, s5)
      | (Except.ok _, s5) => (Except.ok db, s5)

/-- Keyword parameters (besides `self`) accepted by each `PDFVectorStore`
method, read off the `def` lines of `memory_for_llm.py`: every method of the
class takes `self` only. -/
def PDFVectorStore.methodKeywords : String → Option (List String)
  | "load_pdfs" => some []
  | "create_chunks" => some []
  | "load_embedding_model" => some []
  | "build_faiss_index" => some []
  | "save_index" => some []
  | "run_pipeline" => some []
  | _ => none

/-- The method calls `Vector_DB_Pipeline.main` makes on its `PDFVectorStore`
instance (`stage02_memory.py` lines 24-28), each with the keyword-argument
names it passes; the values passed are the ones read from the
`CONFIG FOR MEMO` and `PARMS FOR MEMO` configuration blocks. -/
def Vector_DB_Pipeline.mainCalls : List (String × List String) :=
  [("load_pdfs", ["data"]),
   ("create_chunks", ["extracted_data", "chunk_size", "chunk_overlap"]),
   ("load_embedding_model", ["model_name"]),
   ("build_faiss_index", ["text_chunks", "embedding_model", "db_faiss_path"])]

/-- Python call semantics for keyword arguments: a call binds iff the method
exists and every keyword passed names a declared parameter; otherwise the
interpreter raises `TypeError` before the method body runs. -/
def callAccepted (c : String × List String) : Bool :=
  match PDFVectorStore.methodKeywords c.1 with
  | none => false
  | some ps => c.2.all fun k => ps.contains k

/-- Run a sequence of keyword calls in order, stopping at the first call that
raises `TypeError`: returns the method bodies that actually ran, and the name
of the failing method (`none` when all calls bind). -/
def runKeywordCalls : List (String × List String) → List String × Option String
  | [] => ([], none)
  | c :: rest =>
    if callAccepted c then
      let r := runKeywordCalls rest
      (c.1 :: r.1, r.2)
    else
      ([], some c.1)

/-- Transfer oracle that never leaves any output file behind: every download
attempt fails, for every URL. -/
def failTransfer : String → Nat → Option (List Nat) := fun _ _ => none

/-- Concrete embedding function used in witnesses: the vector is the chunk's
length. -/
def embConst : String → String → List Int := fun _ chunk => [Int.ofNat chunk.length]

/-- Concrete `PDFVectorStore` state with two chunks and a loaded embedding
model, as reached after `load_pdfs`, `create_chunks` and
`load_embedding_model` have run. -/
def c2State : VSState :=
  { data_path := "data/", db_faiss_path := "vectorstore/db_faiss", chunk_size := 500,
    chunk_overlap := 50, model_name := "sentence-transformers/all-MiniLM-L6-v2",
    documents := ["doc one"], text_chunks := ["chunk one", "chunk two"],
    embedding_model := some "sentence-transformers/all-MiniLM-L6-v2",
    db := none, fsWrites := [] }

/-- Concrete `DATA INGESTION` config section used in witnesses. -/
def cfgW : IngestConfig := ⟨some "artifacts/data.zip", some "artifacts/data"⟩

/-- Concrete freshly-initialized `PDFVectorStore` state (both `documents` and
`text_chunks` empty). -/
def c6State : VSState :=
  PDFVectorStore.initState "data/" "vectorstore/db_faiss" 500 50
    "sentence-transformers/all-MiniLM-L6-v2"

lemma pyOr_some_of_ne (s : String) (b : Option String) (h : s ≠ "") :
    pyOr (some s) b = some s := by
  simp [pyOr, h]

lemma pyOr_absent (a b : Option String) (h : a = none ∨ a = some "") :
    pyOr a b = b := by
  rcases h with h | h <;> subst h <;> simp [pyOr]

lemma persistedAt_append (ws : List (String × FAISSIndex)) (p : String)
    (db : FAISSIndex) : persistedAt (ws ++ [(p, db)]) p = some db := by
  simp [persistedAt, List.find?]

/-- Running `_retry_download`'s loop from any attempt with at least one
iteration left, against a transfer that never yields a non-empty file:
every remaining iteration runs, each non-final one sleeps `delay`, and the
loop ends raising the download error. -/
lemma retryFrom_allFail (transfer : String → Nat → Option (List Nat)) (url : String)
    (retries delay : Nat)
    (hfail : ∀ u a, nonEmptyFile (transfer u a) = false) :
    ∀ (rem attempt : Nat) (file0 : Option (List Nat)),
      retryFrom transfer url retries delay attempt (rem + 1) file0 =
        ⟨rem + 1, List.replicate rem delay, transfer (effectiveUrl url) (attempt + rem),
          Except.error (IngestError.downloadError
            ("Failed to download after " ++ toString retries ++ " attempts"))⟩ := by
  intro rem
  induction rem with
  | zero =>
    intro attempt file0
    simp [retryFrom, hfail]
  | succ r ih =>
    intro attempt file0
    rw [retryFrom]
    have harith : attempt + 1 + r = attempt + (r + 1) := by omega
    simp [hfail, ih (attempt + 1), List.replicate_succ, harith]

/-- C1: running `Vector_DB_Pipeline.main` does not invoke the chunking
pipeline's operations: its very first call, `load_pdfs(data=...)`, passes a
keyword argument the method does not declare, so Python raises `TypeError`
before any of load, chunk, embed or build-index runs.  The list of method
bodies that actually execute is empty and the failing method is
`load_pdfs`. -/
theorem vector_db_pipeline_main_type_error :
    runKeywordCalls Vector_DB_Pipeline.mainCalls = ([], some "load_pdfs") ∧
    callAccepted ("load_pdfs", ["data"]) = false := by
  constructor <;> rfl

/-- C4: `extract_file` raises the not-found error when the archive path does
not exist; otherwise it dispatches on content sniffs, trying the zip
signature before the tar signature, and raises the unsupported-format error
when neither matches. -/
theorem extract_file_dispatch :
    extract_file none = Except.error (IngestError.notFound "File not found") ∧
    (∀ b : ArchiveBlob, b.sniffZip = true →
      extract_file (some b) = Except.ok ExtractMethod.zip) ∧
    (∀ b : ArchiveBlob, b.sniffZip = false → b.sniffTar = true →
      extract_file (some b) = Except.ok ExtractMethod.tar) ∧
    (∀ b : ArchiveBlob, b.sniffZip = false → b.sniffTar = false →
      extract_file (some b) = Except.error (IngestError.unsupportedFormat
        "Unsupported archive format. Only ZIP/TAR supported.")) := by
  refine ⟨rfl, ?_, ?_, ?_⟩
  · intro b h1
    simp [extract_file, h1]
  · intro b h1 h2
    simp [extract_file, h1, h2]
  · intro b h1 h2
    simp [extract_file, h1, h2]

/-- C4 witness: a blob matching both sniffs extracts as zip (zip preference),
one matching only tar extracts as tar, and one matching neither raises the
unsupported-format error. -/
theorem extract_file_dispatch_witness :
    extract_file (some ⟨true, true⟩) = Except.ok ExtractMethod.zip ∧
    extract_file (some ⟨false, true⟩) = Except.ok ExtractMethod.tar ∧
    extract_file (some ⟨false, false⟩) = Except.error (IngestError.unsupportedFormat
      "Unsupported archive format. Only ZIP/TAR supported.") :=
  ⟨extract_file_dispatch.2.1 ⟨true, true⟩ rfl,
   extract_file_dispatch.2.2.1 ⟨false, true⟩ rfl rfl,
   extract_file_dispatch.2.2.2 ⟨false, false⟩ rfl rfl⟩

/-- C5: when the destination file exists (any content `bytes`) and
`overwrite` is false, `download_file` makes zero download attempts, creates
no directories, leaves the destination content unchanged byte-for-byte, and
returns successfully. -/
theorem download_file_skip (source_url : String) (bytes : List Nat)
    (transfer : String → Nat → Option (List Nat)) :
    (download_file source_url (some bytes) false transfer).trace.attempts = 0 ∧
    (download_file source_url (some bytes) false transfer).trace.file = some bytes ∧
    (download_file source_url (some bytes) false transfer).madeDirs = false ∧
    (download_file source_url (some bytes) false transfer).trace.outcome =
      Except.ok () := by
  simp [download_file]

/-- C9: the skip check of `download_file` tests only existence: a zero-byte
destination file with `overwrite` false short-circuits the fetch with zero
download attempts, leaving in place an empty file that the component's own
validity check (`nonEmptyFile`) rejects. -/
theorem download_file_skip_zero_byte (source_url : String)
    (transfer : String → Nat → Option (List Nat)) :
    (download_file source_url (some []) false transfer).trace.attempts = 0 ∧
    (download_file source_url (some []) false transfer).trace.file = some [] ∧
    (download_file source_url (some []) false transfer).trace.outcome =
      Except.ok () ∧
    nonEmptyFile (some []) = false := by
  simp [download_file, nonEmptyFile]

/-- C6: `create_chunks` on a state with no documents and `build_faiss_index`
on a state with no chunks both raise the `ValueError` validation error, and
both leave the state — in particular the filesystem write log — untouched. -/
theorem empty_input_guard (split : Nat → Nat → List String → List String)
    (emb : String → String → List Int) (s t : VSState)
    (hs : s.documents = []) (ht : t.text_chunks = []) :
    (PDFVectorStore.create_chunks split s).1 =
      Except.error (VectorStoreError.validationError
        "No documents found. Run load_pdfs() first.") ∧
    (PDFVectorStore.create_chunks split s).2 = s ∧
    (PDFVectorStore.create_chunks split s).2.fsWrites = s.fsWrites ∧
    (PDFVectorStore.build_faiss_index emb t).1 =
      Except.error (VectorStoreError.validationError
        "No text chunks found. Run create_chunks() first.") ∧
    (PDFVectorStore.build_faiss_index emb t).2 = t ∧
    (PDFVectorStore.build_faiss_index emb t).2.fsWrites = t.fsWrites := by
  simp [PDFVectorStore.create_chunks, PDFVectorStore.build_faiss_index, hs, ht]

/-- C6 witness: on a freshly-initialized store both guards fire and the write
log stays empty. -/
theorem empty_input_guard_witness :
    (PDFVectorStore.create_chunks (fun _ _ ds => ds) c6State).1 =
      Except.error (VectorStoreError.validationError
        "No documents found. Run load_pdfs() first.") ∧
    (PDFVectorStore.create_chunks (fun _ _ ds => ds) c6State).2 = c6State ∧
    (PDFVectorStore.create_chunks (fun _ _ ds => ds) c6State).2.fsWrites =
      c6State.fsWrites ∧
    (PDFVectorStore.build_faiss_index embConst c6State).1 =
      Except.error (VectorStoreError.validationError
        "No text chunks found. Run create_chunks() first.") ∧
    (PDFVectorStore.build_faiss_index embConst c6State).2 = c6State ∧
    (PDFVectorStore.build_faiss_index embConst c6State).2.fsWrites =
      c6State.fsWrites :=
  empty_input_guard (fun _ _ ds => ds) embConst c6State c6State rfl rfl

/-- C2 counterexample: on a state with two chunks and a loaded embedding
model, `build_faiss_index` succeeds and returns the in-memory index, but its
filesystem write log stays empty and nothing is persisted at the configured
output path — the index-build operation does not persist the index (that is
the separate `save_index`). -/
theorem build_faiss_index_no_persist :
    (PDFVectorStore.build_faiss_index embConst c2State).1 =
      Except.ok (FAISS.fromDocuments
        (embConst "sentence-transformers/all-MiniLM-L6-v2")
        ["chunk one", "chunk two"]) ∧
    (PDFVectorStore.build_faiss_index embConst c2State).2.fsWrites = [] ∧
    persistedAt (PDFVectorStore.build_faiss_index embConst c2State).2.fsWrites
      "vectorstore/db_faiss" = none := by
  refine ⟨rfl, rfl, rfl⟩

/-- C2 (amended): for every state with a non-empty chunk list and a loaded
embedding model, `build_faiss_index` builds the index over the chunks'
embeddings and returns the in-memory handle without writing to the
filesystem; the subsequent `save_index` call is what persists that index to
the configured output path (its write superseding any earlier index there). -/
theorem build_then_save_persists (emb : String → String → List Int) (s : VSState)
    (m : String) (hne : s.text_chunks ≠ []) (hm : s.embedding_model = some m) :
    (PDFVectorStore.build_faiss_index emb s).1 =
      Except.ok (FAISS.fromDocuments (emb m) s.text_chunks) ∧
    (PDFVectorStore.build_faiss_index emb s).2.fsWrites = s.fsWrites ∧
    (PDFVectorStore.save_index (PDFVectorStore.build_faiss_index emb s).2).1 =
      Except.ok () ∧
    persistedAt
      (PDFVectorStore.save_index
        (PDFVectorStore.build_faiss_index emb s).2).2.fsWrites
      s.db_faiss_path = some (FAISS.fromDocuments (emb m) s.text_chunks) := by
  have hne' : s.text_chunks.isEmpty = false := by
    cases h : s.text_chunks with
    | nil => exact absurd h hne
    | cons a l => rfl
  simp [PDFVectorStore.build_faiss_index, PDFVectorStore.save_index, hne', hm,
    persistedAt_append]

/-- C2 witness: the amended behaviour evaluated on the concrete two-chunk
state. -/
theorem build_then_save_persists_witness :
    (PDFVectorStore.build_faiss_index embConst c2State).1 =
      Except.ok (FAISS.fromDocuments
        (embConst "sentence-transformers/all-MiniLM-L6-v2") c2State.text_chunks) ∧
    (PDFVectorStore.build_faiss_index embConst c2State).2.fsWrites =
      c2State.fsWrites ∧
    (PDFVectorStore.save_index
      (PDFVectorStore.build_faiss_index embConst c2State).2).1 = Except.ok () ∧
    persistedAt
      (PDFVectorStore.save_index
        (PDFVectorStore.build_faiss_index embConst c2State).2).2.fsWrites
      c2State.db_faiss_path = some (FAISS.fromDocuments
        (embConst "sentence-transformers/all-MiniLM-L6-v2") c2State.text_chunks) :=
  build_then_save_persists embConst c2State
    "sentence-transformers/all-MiniLM-L6-v2" (by decide) rfl

/-- C7 counterexample: an explicit constructor argument is supplied for the
source URL — the empty string — yet the resolved value is the
environment-variable value, not the supplied argument, so the claimed
argument-over-environment precedence fails as stated. -/
theorem init_empty_arg_counterexample :
    Ingest_Data.init (some "") none none false
      (some "https://env.example/data.zip") cfgW =
      Except.ok ⟨some "https://env.example/data.zip", some "artifacts/data.zip",
        some "artifacts/data", false⟩ ∧
    (some "" : Option String) ≠ none ∧
    "https://env.example/data.zip" ≠ "" := by
  refine ⟨rfl, by decide, by decide⟩

/-- C7 (amended): for every configuration key of `Ingest_Data`, a non-empty
explicit constructor argument takes precedence over the
environment-variable/config-file value; a `None` or empty-string argument
falls through to that fallback; and whenever no source yields a value for a
required key (source URL, archive path, extraction target), construction
fails with the configuration error. -/
theorem init_precedence (sArg zArg uArg : Option String) (ow : Bool)
    (env : Option String) (cfg : IngestConfig) :
    (∀ s : String, sArg = some s → s ≠ "" →
      (Ingest_Data.resolve sArg zArg uArg env cfg).1 = some s) ∧
    ((sArg = none ∨ sArg = some "") →
      (Ingest_Data.resolve sArg zArg uArg env cfg).1 = env) ∧
    (∀ z : String, zArg = some z → z ≠ "" →
      (Ingest_Data.resolve sArg zArg uArg env cfg).2.1 = some z) ∧
    ((zArg = none ∨ zArg = some "") →
      (Ingest_Data.resolve sArg zArg uArg env cfg).2.1 = cfg.zipFile) ∧
    (∀ u : String, uArg = some u → u ≠ "" →
      (Ingest_Data.resolve sArg zArg uArg env cfg).2.2 = some u) ∧
    ((uArg = none ∨ uArg = some "") →
      (Ingest_Data.resolve sArg zArg uArg env cfg).2.2 = cfg.unzipData) ∧
    ((Ingest_Data.resolve sArg zArg uArg env cfg).1 = none →
      Ingest_Data.init sArg zArg uArg ow env cfg =
        Except.error IngestError.configurationError) ∧
    ((Ingest_Data.resolve sArg zArg uArg env cfg).2.1 = none →
      Ingest_Data.init sArg zArg uArg ow env cfg =
        Except.error IngestError.configurationError) ∧
    ((Ingest_Data.resolve sArg zArg uArg env cfg).2.2 = none →
      Ingest_Data.init sArg zArg uArg ow env cfg =
        Except.error IngestError.configurationError) := by
  refine ⟨?_, ?_, ?_, ?_, ?_, ?_, ?_, ?_, ?_⟩
  · intro s hs hns
    subst hs
    simp [Ingest_Data.resolve, pyOr_some_of_ne s env hns]
  · intro h
    simp [Ingest_Data.resolve, pyOr_absent sArg env h]
  · intro z hz hnz
    subst hz
    simp [Ingest_Data.resolve, pyOr_some_of_ne z cfg.zipFile hnz]
  · intro h
    simp [Ingest_Data.resolve, pyOr_absent zArg cfg.zipFile h]
  · intro u hu hnu
    subst hu
    simp [Ingest_Data.resolve, pyOr_some_of_ne u cfg.unzipData hnu]
  · intro h
    simp [Ingest_Data.resolve, pyOr_absent uArg cfg.unzipData h]
  · intro h
    simp [Ingest_Data.init, h, truthy]
  · intro h
    simp [Ingest_Data.init, h, truthy]
  · intro h
    simp [Ingest_Data.init, h, truthy]

/-- C7 witness: a non-empty explicit source URL wins over a set environment
variable, and a construction where neither argument nor environment provides
the source URL fails with the configuration error. -/
theorem init_precedence_witness :
    (Ingest_Data.resolve (some "https://arg.example/d.zip") (some "a.zip")
      (some "d/") (some "https://env.example/e.zip") cfgW).1 =
      some "https://arg.example/d.zip" ∧
    Ingest_Data.init none (some "a.zip") (some "d/") false none cfgW =
      Except.error IngestError.configurationError :=
  ⟨(init_precedence (some "https://arg.example/d.zip") (some "a.zip") (some "d/")
      false (some "https://env.example/e.zip") cfgW).1
      "https://arg.example/d.zip" rfl (by decide),
   (init_precedence none (some "a.zip") (some "d/") false none
      cfgW).2.2.2.2.2.2.1 rfl⟩

/-- C10: an explicit constructor argument equal to the empty string is
treated as absent by `Ingest_Data`: construction with an empty-string
argument for any of the three keys behaves exactly as construction with no
argument (resolution falls through to environment/config), while any
non-empty argument value takes precedence. -/
theorem empty_string_arg_falls_through (sArg zArg uArg : Option String)
    (ow : Bool) (env : Option String) (cfg : IngestConfig) :
    Ingest_Data.init (some "") zArg uArg ow env cfg =
      Ingest_Data.init none zArg uArg ow env cfg ∧
    Ingest_Data.init sArg (some "") uArg ow env cfg =
      Ingest_Data.init sArg none uArg ow env cfg ∧
    Ingest_Data.init sArg zArg (some "") ow env cfg =
      Ingest_Data.init sArg zArg none ow env cfg ∧
    (∀ s : String, s ≠ "" →
      (Ingest_Data.resolve (some s) zArg uArg env cfg).1 = some s) := by
  refine ⟨?_, ?_, ?_, ?_⟩
  · simp [Ingest_Data.init, Ingest_Data.resolve, pyOr]
  · simp [Ingest_Data.init, Ingest_Data.resolve, pyOr]
  · simp [Ingest_Data.init, Ingest_Data.resolve, pyOr]
  · intro s hs
    simp [Ingest_Data.resolve, pyOr_some_of_ne s env hs]

/-- C10 witness: with the environment variable set, an empty-string source
argument resolves like an absent one, and a non-empty argument wins. -/
theorem empty_string_arg_falls_through_witness :
    Ingest_Data.init (some "") (some "a.zip") (some "d/") false
      (some "https://env.example/e.zip") cfgW =
      Ingest_Data.init none (some "a.zip") (some "d/") false
        (some "https://env.example/e.zip") cfgW ∧
    (Ingest_Data.resolve (some "https://arg.example/d.zip") (some "a.zip")
      (some "d/") (some "https://env.example/e.zip") cfgW).1 =
      some "https://arg.example/d.zip" :=
  ⟨(empty_string_arg_falls_through none (some "a.zip") (some "d/") false
      (some "https://env.example/e.zip") cfgW).1,
   (empty_string_arg_falls_through (some "https://arg.example/d.zip")
      (some "a.zip") (some "d/") false (some "https://env.example/e.zip")
      cfgW).2.2.2 "https://arg.example/d.zip" (by decide)⟩

/-- C3: for every `retries ≥ 1` and `delay`, when the underlying transfer
never produces a non-empty output file, `_retry_download` makes exactly
`retries` download attempts, observes exactly `retries - 1` inter-attempt
sleeps of `delay` time-units each, and then raises the download error. -/
theorem retry_bound (transfer : String → Nat → Option (List Nat)) (url : String)
    (retries delay : Nat) (file0 : Option (List Nat))
    (hr : 1 ≤ retries)
    (hfail : ∀ u a, nonEmptyFile (transfer u a) = false) :
    (retry_download transfer url retries delay file0).attempts = retries ∧
    (retry_download transfer url retries delay file0).sleeps =
      List.replicate (retries - 1) delay ∧
    (retry_download transfer url retries delay file0).outcome =
      Except.error (IngestError.downloadError
        ("Failed to download after " ++ toString retries ++ " attempts")) := by
  obtain ⟨r, rfl⟩ : ∃ r, retries = r + 1 := ⟨retries - 1, by omega⟩
  rw [retry_download, retryFrom_allFail transfer url (r + 1) delay hfail r 1 file0]
  simp

/-- C3 witness: at the source defaults `retries = 3`, `delay = 5`, an
always-failing transfer gives exactly 3 attempts, 2 sleeps of 5 time-units,
and the download error. -/
theorem retry_bound_witness :
    (retry_download failTransfer "https://example.com/data.zip" 3 5 none).attempts = 3 ∧
    (retry_download failTransfer "https://example.com/data.zip" 3 5 none).sleeps =
      [5, 5] ∧
    (retry_download failTransfer "https://example.com/data.zip" 3 5 none).outcome =
      Except.error (IngestError.downloadError "Failed to download after 3 attempts") :=
  ⟨(retry_bound failTransfer "https://example.com/data.zip" 3 5 none (by decide)
      (fun _ _ => rfl)).1,
   ((retry_bound failTransfer "https://example.com/data.zip" 3 5 none (by decide)
      (fun _ _ => rfl)).2.1).trans rfl,
   ((retry_bound failTransfer "https://example.com/data.zip" 3 5 none (by decide)
      (fun _ _ => rfl)).2.2).trans rfl⟩

/-- C8 counterexample: the download error raised after exhausting the retries
is byte-for-byte identical for two different URLs — its message is
`"Failed to download after 3 attempts"`, which contains the attempt count but
no part of either URL — so the error does not signal the URL that was being
fetched. -/
theorem download_error_ignores_url :
    (retry_download failTransfer "https://host-a.example/a.zip" 3 5 none).outcome =
      (retry_download failTransfer "https://host-b.example/b.tar" 3 5 none).outcome ∧
    (retry_download failTransfer "https://host-a.example/a.zip" 3 5 none).outcome =
      Except.error (IngestError.downloadError "Failed to download after 3 attempts") ∧
    containsSub "Failed to download after 3 attempts" "host-a.example" = false ∧
    "https://host-a.example/a.zip" ≠ "https://host-b.example/b.tar" := by
  refine ⟨rfl, rfl, by decide, by decide⟩

/-- C8 (amended): the download error raised after exhausting the retries
signals the number of attempts made — its message is exactly
`"Failed to download after {retries} attempts"` — and is independent of the
URL being fetched, which does not appear in the error. -/
theorem download_error_message (transfer : String → Nat → Option (List Nat))
    (url : String) (retries delay : Nat) (file0 : Option (List Nat))
    (hr : 1 ≤ retries)
    (hfail : ∀ u a, nonEmptyFile (transfer u a) = false) :
    (retry_download transfer url retries delay file0).outcome =
      Except.error (IngestError.downloadError
        ("Failed to download after " ++ toString retries ++ " attempts")) ∧
    (∀ url2 : String,
      (retry_download transfer url2 retries delay file0).outcome =
        (retry_download transfer url retries delay file0).outcome) := by
  obtain ⟨r, rfl⟩ : ∃ r, retries = r + 1 := ⟨retries - 1, by omega⟩
  constructor
  · rw [retry_download, retryFrom_allFail transfer url (r + 1) delay hfail r 1 file0]
  · intro url2
    rw [retry_download, retry_download,
      retryFrom_allFail transfer url (r + 1) delay hfail r 1 file0,
      retryFrom_allFail transfer url2 (r + 1) delay hfail r 1 file0]

/-- C8 witness: at the defaults the raised error is exactly the
attempt-count message, and a different URL yields the same outcome. -/
theorem download_error_message_witness :
    (retry_download failTransfer "https://example.com/data.zip" 3 5 none).outcome =
      Except.error (IngestError.downloadError "Failed to download after 3 attempts") ∧
    (retry_download failTransfer "https://other.example/x.zip" 3 5 none).outcome =
      (retry_download failTransfer "https://example.com/data.zip" 3 5 none).outcome :=
  ⟨((download_error_message failTransfer "https://example.com/data.zip" 3 5 none
      (by decide) (fun _ _ => rfl)).1).trans rfl,
   (download_error_message failTransfer "https://example.com/data.zip" 3 5 none
      (by decide) (fun _ _ => rfl)).2 "https://other.example/x.zip"⟩
